import Mathlib

/-!
Verification development for the concurrent genai judge-scoring engine
(`mlflow/metrics/genai/genai_metric.py`).

The Python code is shallowly embedded: Python values that the parser and the
scoring tasks manipulate become the inductive `PyVal`; raised exceptions become
the `Except PyErr` monad; the `ThreadPoolExecutor`/`as_completed` loop becomes
an explicit completion order (a list of row indices) fed to a collector that
writes each task's result at its own row index.  `json.loads`, `re.search` for
the one fixed pattern, `int(...)` coercion, and the numpy reductions are
modelled from their documented behaviour on the value shapes this code feeds
them.
-/

/-- Exceptions that the embedded code can raise.  `mlflowException` carries the
message and the `error_code` string (as produced by `ErrorCode.Name`);
`mlflowWrap` models `raise MlflowException(e)` re-wrapping an exception. -/
inductive PyErr where
  | unboundLocal
  | keyError (k : String)
  | typeError (msg : String)
  | valueError (msg : String)
  | attributeError (msg : String)
  | mlflowException (msg : String) (errorCode : String)
  | mlflowWrap (inner : PyErr)

/-- Python values manipulated by the judge-response parser: `None`, booleans,
arbitrary-precision integers, floats (modelled as rationals), strings, lists
and string-keyed dicts (association lists; the code never builds duplicate
keys). -/
inductive PyVal where
  | none
  | bool (b : Bool)
  | int (n : Int)
  | float (q : ℚ)
  | str (s : String)
  | list (xs : List PyVal)
  | dict (entries : List (String × PyVal))

/-- Python truthiness for the shapes above (`if text:`). -/
def pyTruthy : PyVal → Bool
  | .none => false
  | .bool b => b
  | .int n => n != 0
  | .float q => q != 0
  | .str s => s != ""
  | .list xs => !xs.isEmpty
  | .dict es => !es.isEmpty

/-- `d["k"]` / `"k" in d` lookup on a dict. -/
def dictGet (entries : List (String × PyVal)) (k : String) : Option PyVal :=
  match entries with
  | [] => Option.none
  | (k2, v) :: rest => if k2 = k then some v else dictGet rest k

/-- `d.get(k)` — missing key yields `None`. -/
def dictGetD (entries : List (String × PyVal)) (k : String) : PyVal :=
  (dictGet entries k).getD PyVal.none

mutual
/-- Python `repr` of a value (as used for elements nested inside containers). -/
def pyRepr : PyVal → String
  | .none => "None"
  | .bool b => if b then "True" else "False"
  | .int n => toString n
  | .float q => toString q.num ++ "/" ++ toString q.den
  | .str s => "\x27" ++ s ++ "\x27"
  | .list xs => "[" ++ pyReprItems xs ++ "]"
  | .dict es => "\x7b" ++ pyReprEntries es ++ "\x7d"

def pyReprItems : List PyVal → String
  | [] => ""
  | [x] => pyRepr x
  | x :: y :: rest => pyRepr x ++ ", " ++ pyReprItems (y :: rest)

def pyReprEntries : List (String × PyVal) → String
  | [] => ""
  | [(k, v)] => "\x27" ++ k ++ "\x27: " ++ pyRepr v
  | (k, v) :: e :: rest => "\x27" ++ k ++ "\x27: " ++ pyRepr v ++ ", " ++ pyReprEntries (e :: rest)
end

/-- Python `str()` of a value, as an f-string `{output}` renders it: a string
renders as itself, containers render via `repr` of their elements. -/
def pyStr : PyVal → String
  | .str s => s
  | v => pyRepr v

/-! ### `json.loads`, modelled for the value shapes this code feeds it

A recursive-descent parser over the character list, fuelled for termination.
It covers `null`, booleans, integers, decimal floats, strings with the common
escapes, arrays and objects; exponents and `\u` escapes are outside the shapes
exercised here and are rejected.  Any failure stands for `JSONDecodeError`. -/

def isJsonWs (c : Char) : Bool :=
  c = ' ' || c = '\t' || c = '\n' || c = '\r'

def skipWs : List Char → List Char
  | [] => []
  | c :: rest => if isJsonWs c then skipWs rest else c :: rest

def escChar (e : Char) : Option Char :=
  if e = 'n' then some '\n'
  else if e = 't' then some '\t'
  else if e = 'r' then some '\r'
  else if e = 'b' then some '\x08'
  else if e = 'f' then some '\x0c'
  else if e = '"' || e = '\\' || e = '/' then some e
  else Option.none

def parseStrBody : List Char → Except Unit (String × List Char)
  | [] => .error ()
  | '"' :: rest => .ok ("", rest)
  | '\\' :: rest =>
    match rest with
    | [] => .error ()
    | e :: rest2 =>
      match escChar e with
      | some c =>
        match parseStrBody rest2 with
        | .ok (s, r) => .ok (String.mk (c :: s.data), r)
        | .error _ => .error ()
      | Option.none => .error ()
  | c :: rest =>
    match parseStrBody rest with
    | .ok (s, r) => .ok (String.mk (c :: s.data), r)
    | .error _ => .error ()

def digitsToNat (ds : List Char) : Nat :=
  ds.foldl (fun a c => a * 10 + (c.toNat - '0'.toNat)) 0

def parseNumber (cs : List Char) : Except Unit (PyVal × List Char) :=
  let (neg, cs1) := match cs with
    | '-' :: r => (true, r)
    | r => (false, r)
  let ds := cs1.takeWhile Char.isDigit
  if ds.isEmpty then .error () else
  let cs2 := cs1.dropWhile Char.isDigit
  match cs2 with
  | '.' :: cs3 =>
    let fs := cs3.takeWhile Char.isDigit
    if fs.isEmpty then .error () else
    let cs4 := cs3.dropWhile Char.isDigit
    let q : ℚ := (digitsToNat ds : ℚ) + (digitsToNat fs : ℚ) / ((10 : ℚ) ^ fs.length)
    match cs4 with
    | c :: _ => if c = 'e' || c = 'E' then .error ()
                else .ok (.float (if neg then -q else q), cs4)
    | [] => .ok (.float (if neg then -q else q), [])
  | c :: _ =>
    if c = 'e' || c = 'E' then .error ()
    else .ok (.int (if neg then -(digitsToNat ds : Int) else (digitsToNat ds : Int)), cs2)
  | [] => .ok (.int (if neg then -(digitsToNat ds : Int) else (digitsToNat ds : Int)), [])

mutual
def parseVal : Nat → List Char → Except Unit (PyVal × List Char)
  | 0, _ => .error ()
  | fuel + 1, cs =>
    match skipWs cs with
    | [] => .error ()
    | '"' :: rest =>
      match parseStrBody rest with
      | .ok (s, r) => .ok (.str s, r)
      | .error _ => .error ()
    | 'n' :: rest =>
      if rest.take 3 = ['u', 'l', 'l'] then .ok (.none, rest.drop 3) else .error ()
    | 't' :: rest =>
      if rest.take 3 = ['r', 'u', 'e'] then .ok (.bool true, rest.drop 3) else .error ()
    | 'f' :: rest =>
      if rest.take 4 = ['a', 'l', 's', 'e'] then .ok (.bool false, rest.drop 4) else .error ()
    | '[' :: rest =>
      match skipWs rest with
      | ']' :: r => .ok (.list [], r)
      | r2 =>
        match parseItems fuel r2 with
        | .ok (xs, r) => .ok (.list xs, r)
        | .error _ => .error ()
    | '\x7b' :: rest =>
      match skipWs rest with
      | '\x7d' :: r => .ok (.dict [], r)
      | r2 =>
        match parseEntries fuel r2 with
        | .ok (es, r) => .ok (.dict es, r)
        | .error _ => .error ()
    | cs2 => parseNumber cs2

def parseItems : Nat → List Char → Except Unit (List PyVal × List Char)
  | 0, _ => .error ()
  | fuel + 1, cs =>
    match parseVal fuel cs with
    | .error _ => .error ()
    | .ok (v, r) =>
      match skipWs r with
      | ',' :: r2 =>
        match parseItems fuel r2 with
        | .ok (xs, r3) => .ok (v :: xs, r3)
        | .error _ => .error ()
      | ']' :: r2 => .ok ([v], r2)
      | _ => .error ()

def parseEntries : Nat → List Char → Except Unit (List (String × PyVal) × List Char)
  | 0, _ => .error ()
  | fuel + 1, cs =>
    match skipWs cs with
    | '"' :: rest =>
      match parseStrBody rest with
      | .error _ => .error ()
      | .ok (k, r) =>
        match skipWs r with
        | ':' :: r2 =>
          match parseVal fuel r2 with
          | .error _ => .error ()
          | .ok (v, r3) =>
            match skipWs r3 with
            | ',' :: r4 =>
              match parseEntries fuel r4 with
              | .ok (es, r5) => .ok ((k, v) :: es, r5)
              | .error _ => .error ()
            | '\x7d' :: r4 => .ok ([(k, v)], r4)
            | _ => .error ()
        | _ => .error ()
    | _ => .error ()
end

/-- `json.loads` on a string: parse one value, then only whitespace may remain. -/
def jsonLoads (s : String) : Except Unit PyVal :=
  match parseVal (2 * s.length + 2) s.data with
  | .ok (v, r) => if (skipWs r).isEmpty then .ok v else .error ()
  | .error _ => .error ()

/-! ### `re.search(r"score: (\d+),?\s*justification: (.+)", text)`

The pattern is fixed, so the search is modelled directly: try to match at each
position left to right; at a given position the match is deterministic (the
greedy sub-patterns are followed by characters they cannot consume). -/

def isPySpace (c : Char) : Bool :=
  c = ' ' || c = '\t' || c = '\n' || c = '\r' || c = '\x0b' || c = '\x0c'

/-- Try the pattern anchored at the start of `cs`; on success return the two
capture groups (the digits, and the greedy rest-of-line). -/
def matchScoreJust (cs : List Char) : Option (List Char × List Char) :=
  let pre1 := "score: ".data
  if pre1.isPrefixOf cs then
    let cs1 := cs.drop pre1.length
    let ds := cs1.takeWhile Char.isDigit
    if ds.isEmpty then Option.none else
    let cs2 := cs1.dropWhile Char.isDigit
    let cs3 := match cs2 with
      | ',' :: r => r
      | r => r
    let cs4 := cs3.dropWhile isPySpace
    let pre2 := "justification: ".data
    if pre2.isPrefixOf cs4 then
      let cs5 := cs4.drop pre2.length
      let g2 := cs5.takeWhile (fun c => c != '\n')
      if g2.isEmpty then Option.none else some (ds, g2)
    else Option.none
  else Option.none

def reSearchAux : List Char → Option (List Char × List Char)
  | [] => matchScoreJust []
  | c :: rest =>
    match matchScoreJust (c :: rest) with
    | some r => some r
    | Option.none => reSearchAux rest

def reSearch (s : String) : Option (String × String) :=
  match reSearchAux s.data with
  | some (d, g) => some (String.mk d, String.mk g)
  | Option.none => Option.none

/-! ### `int(...)` coercion -/

/-- Truncation toward zero, as Python `int()` does on floats. -/
def ratTrunc (q : ℚ) : Int := if 0 ≤ q then ⌊q⌋ else -⌊-q⌋

/-- `int(s)` on a string: strip whitespace, optional sign, decimal digits. -/
def strToInt? (s : String) : Option Int :=
  let cs := ((s.data.dropWhile isPySpace).reverse.dropWhile isPySpace).reverse
  let (neg, cs1) := match cs with
    | '-' :: r => (true, r)
    | '+' :: r => (false, r)
    | r => (false, r)
  if cs1.isEmpty || !cs1.all Char.isDigit then Option.none
  else some (if neg then -(digitsToNat cs1 : Int) else (digitsToNat cs1 : Int))

/-- Python `int(x)`: ints and bools pass through, floats truncate, numeric
strings parse (`ValueError` otherwise), everything else is a `TypeError` —
in particular `int(None)` raises, which matters below. -/
def pyInt : PyVal → Except PyErr Int
  | .int n => .ok n
  | .bool b => .ok (if b then 1 else 0)
  | .float q => .ok (ratTrunc q)
  | .str s =>
    match strToInt? s with
    | some n => .ok n
    | Option.none =>
      .error (.valueError ("invalid literal for int() with base 10: \x27" ++ s ++ "\x27"))
  | .none =>
    .error (.typeError
      "int() argument must be a string, a bytes-like object or a real number, not \x27NoneType\x27")
  | .list _ =>
    .error (.typeError
      "int() argument must be a string, a bytes-like object or a real number, not \x27list\x27")
  | .dict _ =>
    .error (.typeError
      "int() argument must be a string, a bytes-like object or a real number, not \x27dict\x27")

/-! ### `_extract_score_and_justification` (genai_metric.py lines 52-82) -/

/-- The structured-candidates test and text extraction at the top of
`_extract_score_and_justification`.  `Option.none` means the Python condition
`isinstance(output, dict) and "candidates" in output and
isinstance(output["candidates"], list) and output["candidates"]` is false, so
the local variable `text` is never assigned; `some r` is the outcome of
evaluating `output["candidates"][0]["text"]`. -/
def getCandidateText (output : PyVal) : Option (Except PyErr PyVal) :=
  match output with
  | .dict es =>
    match dictGet es "candidates" with
    | some (.list (c :: _)) =>
      some (match c with
            | .dict ces =>
              match dictGet ces "text" with
              | some t => .ok t
              | Option.none => .error (.keyError "text")
            | .str _ => .error (.typeError "string indices must be integers")
            | .list _ => .error (.typeError "list indices must be integers or slices, not str")
            | _ => .error (.typeError "object is not subscriptable"))
    | _ => Option.none
  | _ => Option.none

/-- The diagnostic built by the f-string
`f"Failed to extract score and justification. Raw output: {output}"`. -/
def failExtractMsg (output : PyVal) : String :=
  "Failed to extract score and justification. Raw output: " ++ pyStr output

/-- `isinstance(x, (int, float))` — Python bools are ints. -/
def pyIsNumeric : PyVal → Bool
  | .int _ => true
  | .bool _ => true
  | .float _ => true
  | _ => false

/-- `isinstance(x, str)`. -/
def pyIsStr : PyVal → Bool
  | .str _ => true
  | _ => false

def scoreAsInt : PyVal → Option Int
  | .int n => some n
  | .bool b => some (if b then 1 else 0)
  | .float q => some (ratTrunc q)
  | _ => Option.none

/-- The final `isinstance` guard and `return score, justification`
(lines 77-80): a non-numeric score or non-string justification is replaced by
the failure diagnostic. -/
def finishExtract (output score justification : PyVal) : Option Int × Option String :=
  if pyIsNumeric score && pyIsStr justification then
    (scoreAsInt score,
     match justification with
     | .str s => some s
     | _ => Option.none)
  else (Option.none, some (failExtractMsg output))

/-- Lines 52-82.  Note the source assigns `text` only inside the structured
branch, so when that condition is false `if text:` raises `UnboundLocalError`;
and `int(data.get("score"))` is inside a `try` that catches only
`json.JSONDecodeError`, so its `TypeError`/`ValueError` propagates. -/
def _extract_score_and_justification (output : PyVal) :
    Except PyErr (Option Int × Option String) :=
  match getCandidateText output with
  | Option.none => .error .unboundLocal
  | some (.error e) => .error e
  | some (.ok text) =>
    if pyTruthy text then
      match text with
      | .str s =>
        match jsonLoads s with
        | .ok data =>
          match data with
          | .dict d =>
            match pyInt (dictGetD d "score") with
            | .error e => .error e
            | .ok n => .ok (finishExtract output (.int n) (dictGetD d "justification"))
          | .none => .error (.attributeError "\x27NoneType\x27 object has no attribute \x27get\x27")
          | .bool _ => .error (.attributeError "\x27bool\x27 object has no attribute \x27get\x27")
          | .int _ => .error (.attributeError "\x27int\x27 object has no attribute \x27get\x27")
          | .float _ => .error (.attributeError "\x27float\x27 object has no attribute \x27get\x27")
          | .str _ => .error (.attributeError "\x27str\x27 object has no attribute \x27get\x27")
          | .list _ => .error (.attributeError "\x27list\x27 object has no attribute \x27get\x27")
        | .error _ =>
          match reSearch s with
          | some (digits, rest) =>
            .ok (finishExtract output (.int (digitsToNat digits.data : Int)) (.str rest))
          | Option.none =>
            .ok (finishExtract output PyVal.none (.str (failExtractMsg output)))
      | _ => .error (.typeError "the JSON object must be str, bytes or bytearray")
    else .ok (Option.none, Option.none)

/-! ### `_format_args_string` (lines 29-48) and the per-row task (lines 242-285) -/

def strJoin (sep : String) : List String → String
  | [] => ""
  | [x] => x
  | x :: y :: rest => x ++ sep ++ strJoin sep (y :: rest)

/-- `MlflowException`'s default `error_code` (its constructor lives outside
`src/`; the default is never compared against the fatal codes below, so only
the fact that it is neither `BAD_REQUEST` nor `UNAUTHENTICATED` matters). -/
def defaultErrorCode : String := "INTERNAL_ERROR"

def evLookup (ev : List (String × List PyVal)) (k : String) : Option (List PyVal) :=
  match ev with
  | [] => Option.none
  | (k2, v) :: rest => if k2 = k then some v else evLookup rest k

/-- Positional indexing into a column's value series; an out-of-range index
raises `KeyError` as pandas does for a missing integer label. -/
def seriesGet (xs : List PyVal) (i : Nat) : Except PyErr PyVal :=
  match xs[i]? with
  | some v => .ok v
  | Option.none => .error (.keyError (toString i))

/-- `str(list(eval_values.keys()))`. -/
def keysListStr (ev : List (String × List PyVal)) : String :=
  "[" ++ strJoin ", " (ev.map fun kv => "\x27" ++ kv.1 ++ "\x27") ++ "]"

/-- The loop of `_format_args_string`: build `args_dict` in declaration
order; a column name absent from `eval_values` raises the `MlflowException`
of line 35 (which names the column but takes no row index). -/
def buildArgsDict (gcols : List String) (ev : List (String × List PyVal)) (indx : Nat) :
    Except PyErr (List (String × PyVal)) :=
  match gcols with
  | [] => .ok []
  | arg :: rest =>
    match evLookup ev arg with
    | some series =>
      match seriesGet series indx with
      | .ok v =>
        match buildArgsDict rest ev indx with
        | .ok d => .ok ((arg, v) :: d)
        | .error e => .error e
      | .error e => .error e
    | Option.none =>
      .error (.mlflowException
        (arg ++ " does not exist in the eval function " ++ keysListStr ev ++ ".")
        defaultErrorCode)

/-- Lines 29-48.  The source's `"" if args_dict is None` arm is dead code
(`args_dict` is always a dict), so the live arm is translated. -/
def _format_args_string (gcols : List String) (ev : List (String × List PyVal))
    (indx : Nat) : Except PyErr String :=
  match buildArgsDict gcols ev indx with
  | .error e => .error e
  | .ok argsDict =>
    .ok ("Additional information used by the model:\n" ++
      strJoin "\n" (argsDict.map fun kv => "key: " ++ kv.1 ++ "\nvalue:\n" ++ pyStr kv.2))

/-- `{e!r}` — exception `repr`. -/
def pyErrRepr : PyErr → String
  | .unboundLocal => "UnboundLocalError(\x22local variable \x27text\x27 referenced before assignment\x22)"
  | .keyError k => "KeyError(" ++ k ++ ")"
  | .typeError m => "TypeError(\x27" ++ m ++ "\x27)"
  | .valueError m => "ValueError(\x22" ++ m ++ "\x22)"
  | .attributeError m => "AttributeError(\x22" ++ m ++ "\x22)"
  | .mlflowException m _ => "MlflowException(\x27" ++ m ++ "\x27)"
  | .mlflowWrap inner => "MlflowException(" ++ pyErrRepr inner ++ ")"

/-- `{e!s}` — `str()` of an exception: its message. -/
def pyErrStr : PyErr → String
  | .unboundLocal => "local variable \x27text\x27 referenced before assignment"
  | .keyError k => "\x27" ++ k ++ "\x27"
  | .typeError m => m
  | .valueError m => m
  | .attributeError m => m
  | .mlflowException m _ => m
  | .mlflowWrap inner => pyErrStr inner

/-- `str(dict-of-Series)` inside the wrap message (pandas table rendering
simplified to list form; the claims only inspect this string for absence of a
row index and presence of column names). -/
def evalValuesStr (ev : List (String × List PyVal)) : String :=
  "\x7b" ++
    strJoin ", " (ev.map fun kv => "\x27" ++ kv.1 ++ "\x27: " ++ pyReprItems kv.2) ++
  "\x7d"

/-- The `MlflowException` message of lines 255-266 wrapping a formatting
failure.  Note it mentions the metric name, the required columns, the whole
`eval_values` mapping and the inner error, but not the row index. -/
def contextWrapMsg (name : String) (gcols : List String)
    (ev : List (String × List PyVal)) (e : PyErr) : String :=
  "Values for grading_context_columns are malformed and cannot be " ++
  "formatted into a prompt for metric \x27" ++ name ++ "\x27.\n" ++
  "Required columns: " ++ keysListStrOfCols gcols ++ "\n" ++
  "Values: " ++ evalValuesStr ev ++ "\n" ++
  "Error: " ++ pyErrRepr e ++ "\n" ++
  "Please check the following: \n" ++
  "- predictions and targets (if required) are provided correctly\n" ++
  "- grading_context_columns are mapped correctly using the evaluator_config " ++
  "parameter\n" ++
  "- input and output data are formatted correctly."
where keysListStrOfCols (ks : List String) : String :=
  "[" ++ strJoin ", " (ks.map fun k => "\x27" ++ k ++ "\x27") ++ "]"

/-- The fatal test of lines 279-283: an `MlflowException` whose `error_code`
is `BAD_REQUEST` or `UNAUTHENTICATED`.  (`raise MlflowException(e)` builds a
fresh exception with the default error code, so `mlflowWrap` is not fatal.) -/
def isFatal : PyErr → Bool
  | .mlflowException _ code => code = "BAD_REQUEST" || code = "UNAUTHENTICATED"
  | _ => false

/-- `score_model_on_one_payload` (lines 242-285).  The judge call
`model_utils.score_model_on_payload` is an external collaborator; its outcome
for this row is the `judge` argument.  The prompt text built from
`arg_string` only feeds that call, so it is computed (for its exceptions) and
then abstracted. -/
def score_model_on_one_payload (name : String) (gcols : List String)
    (ev : List (String × List PyVal)) (judge : Except PyErr PyVal)
    (indx : Nat) : Except PyErr (Option Int × Option String) :=
  match _format_args_string gcols ev indx with
  | .error e => .error (.mlflowException (contextWrapMsg name gcols ev e) defaultErrorCode)
  | .ok _argString =>
    match judge >>= _extract_score_and_justification with
    | .ok r => .ok r
    | .error e =>
      if isFatal e then .error (.mlflowWrap e)
      else .ok (Option.none, some ("Failed to score model on payload. Error: " ++ pyErrStr e))

/-! ### `aggregate_function` (lines 312-331), with the numpy reductions
modelled from their documented behaviour on python lists of ints -/

/-- An aggregation result: a number, numpy `nan`, or Python `None` (the `p90`
lambda's guard). -/
inductive AggVal where
  | num (q : ℚ)
  | nan
  | pynone
deriving DecidableEq

def insertSorted (x : Int) : List Int → List Int
  | [] => [x]
  | y :: rest => if x ≤ y then x :: y :: rest else y :: insertSorted x rest

def sortInts (xs : List Int) : List Int := xs.foldr insertSorted []

/-- `np.min`: raises `ValueError` on an empty sequence. -/
def npMin : List Int → Except PyErr AggVal
  | [] => .error (.valueError "zero-size array to reduction operation minimum which has no identity")
  | x :: rest => .ok (.num ((rest.foldl (fun a b => min a b) x : Int) : ℚ))

/-- `np.max`: raises `ValueError` on an empty sequence. -/
def npMax : List Int → Except PyErr AggVal
  | [] => .error (.valueError "zero-size array to reduction operation maximum which has no identity")
  | x :: rest => .ok (.num ((rest.foldl (fun a b => max a b) x : Int) : ℚ))

/-- `np.mean`: `nan` on an empty sequence (with a warning), else the mean. -/
def npMean : List Int → AggVal
  | [] => .nan
  | x :: rest =>
    .num (((((x :: rest).foldl (fun a b => a + b) 0 : Int)) : ℚ) / ((x :: rest).length : ℚ))

/-- `np.median`: `nan` on an empty sequence, else the middle element or the
mean of the two middle elements of the sorted data. -/
def npMedian (xs : List Int) : AggVal :=
  match sortInts xs with
  | [] => .nan
  | s =>
    let n := s.length
    if n % 2 = 1 then .num ((s.getD (n / 2) 0 : Int) : ℚ)
    else .num ((((s.getD (n / 2 - 1) 0 : Int) : ℚ) + ((s.getD (n / 2) 0 : Int) : ℚ)) / 2)

/-- `np.var` (ddof 0): `nan` on an empty sequence, else the population
variance. -/
def npVar (xs : List Int) : AggVal :=
  match xs with
  | [] => .nan
  | _ =>
    let m : ℚ := ((xs.foldl (fun a b => a + b) 0 : Int) : ℚ) / (xs.length : ℚ)
    .num ((xs.foldl (fun a x => a + ((x : ℚ) - m) ^ 2) 0) / (xs.length : ℚ))

/-- `np.percentile(xs, 90)` with the default linear interpolation, on a
nonempty sequence (the caller guards emptiness). -/
def npPercentile90 (xs : List Int) : AggVal :=
  match sortInts xs with
  | [] => .nan
  | y :: s =>
    let n := (y :: s).length
    let h : ℚ := ((n - 1 : Nat) : ℚ) * (9 / 10)
    let lo : Nat := (⌊h⌋).toNat
    let a : ℚ := (((y :: s).getD lo y : Int) : ℚ)
    let b : ℚ := (((y :: s).getD (lo + 1) ((y :: s).getD lo y) : Int) : ℚ)
    .num (a + (h - (lo : ℚ)) * (b - a))

def supportedAggregations : List String :=
  ["min", "max", "mean", "median", "variance", "p90"]

/-- Lines 313-331: dispatch on the statistic name; an unrecognized name
raises `MlflowException` with `INVALID_PARAMETER_VALUE`. -/
def aggregate_function (opt : String) (xs : List Int) : Except PyErr AggVal :=
  if opt = "min" then npMin xs
  else if opt = "max" then npMax xs
  else if opt = "mean" then .ok (npMean xs)
  else if opt = "median" then .ok (npMedian xs)
  else if opt = "variance" then .ok (npVar xs)
  else if opt = "p90" then .ok (if xs.isEmpty then AggVal.pynone else npPercentile90 xs)
  else .error (.mlflowException ("Invalid aggregate option " ++ opt ++ ".")
    "INVALID_PARAMETER_VALUE")

/-- The dict comprehension of lines 335-339: statistics are computed in list
order and the first raised exception aborts the comprehension. -/
def computeAggs : List String → List Int → Except PyErr (List (String × AggVal))
  | [], _ => .ok []
  | a :: rest, xs =>
    match aggregate_function a xs with
    | .error e => .error e
    | .ok v =>
      match computeAggs rest xs with
      | .error e => .error e
      | .ok m => .ok ((a, v) :: m)

/-! ### `eval_fn` (lines 215-341): the concurrent scorer -/

/-- The value returned by `eval_fn` (`MetricValue(scores, justifications,
aggregate_results)`). -/
structure MetricValue where
  scores : List (Option Int)
  justifications : List (Option String)
  aggregate_results : List (String × AggVal)

/-- The task submitted for row `indx` (lines 292-303): `eval_values` is
`dict(zip(grading_context_columns, args))`; the judge-call outcome for each
row is the `judge` argument. -/
def rowResults (name : String) (gcols : List String) (args : List (List PyVal))
    (judge : Nat → Except PyErr PyVal) : Nat → Except PyErr (Option Int × Option String) :=
  fun indx => score_model_on_one_payload name gcols (List.zip gcols args) (judge indx) indx

/-- The `as_completed` loop (lines 306-310): futures are consumed in
completion order; `future.result()` re-raises a task's exception, aborting the
run; otherwise the pair is written at the task's own row index into the
preallocated arrays. -/
def collect (results : Nat → Except PyErr (Option Int × Option String)) :
    List Nat → List (Option Int) → List (Option String) →
    Except PyErr (List (Option Int) × List (Option String))
  | [], scores, justs => .ok (scores, justs)
  | i :: rest, scores, justs =>
    match results i with
    | .error e => .error e
    | .ok (s, j) => collect results rest (scores.set i s) (justs.set i j)

/-- Lines 215-341.  `order` is the completion order of the submitted futures
(the theorems quantify over every permutation of the task indices
`0 .. min(len(inputs), len(predictions)) - 1`); `aggregations = Option.none`
is Python `aggregations is None`.  The `isinstance(eval_model, str)` guard
passes (the model URI is a string by construction) and the prompt text only
feeds the judge call, which is abstracted by `judge`. -/
def eval_fn (name : String) (gcols : List String) (aggregations : Option (List String))
    (judge : Nat → Except PyErr PyVal)
    (predictions : List PyVal) (inputs : List PyVal) (args : List (List PyVal))
    (order : List Nat) : Except PyErr MetricValue :=
  match collect (rowResults name gcols args judge) order
      (List.replicate inputs.length Option.none)
      (List.replicate inputs.length Option.none) with
  | .error e => .error e
  | .ok (scores, justifications) =>
    match aggregations with
    | Option.none => .ok ⟨scores, justifications, []⟩
    | some aggs =>
      match computeAggs aggs (scores.filterMap id) with
      | .error e => .error e
      | .ok m => .ok ⟨scores, justifications, m⟩

/-! ### Lemmas about the `as_completed` collector -/

theorem collect_length {results : Nat → Except PyErr (Option Int × Option String)}
    {order : List Nat} {s0 j0 sc ju}
    (h : collect results order s0 j0 = .ok (sc, ju)) :
    sc.length = s0.length ∧ ju.length = j0.length := by
  induction order generalizing s0 j0 with
  | nil =>
    simp only [collect, Except.ok.injEq, Prod.mk.injEq] at h
    obtain ⟨h1, h2⟩ := h
    subst h1; subst h2
    exact ⟨rfl, rfl⟩
  | cons a rest ih =>
    simp only [collect] at h
    cases hra : results a with
    | error e => rw [hra] at h; cases h
    | ok v =>
      rw [hra] at h
      obtain ⟨s, j⟩ := v
      have := ih h
      simpa [List.length_set] using this

theorem collect_mem_ok {results : Nat → Except PyErr (Option Int × Option String)}
    {order : List Nat} {s0 j0 sc ju}
    (h : collect results order s0 j0 = .ok (sc, ju)) {i : Nat} (hi : i ∈ order) :
    ∃ v, results i = .ok v := by
  induction order generalizing s0 j0 with
  | nil => cases hi
  | cons a rest ih =>
    simp only [collect] at h
    cases hra : results a with
    | error e => rw [hra] at h; cases h
    | ok v =>
      rw [hra] at h
      obtain ⟨s, j⟩ := v
      rcases List.mem_cons.mp hi with hia | hir
      · subst hia; exact ⟨_, hra⟩
      · exact ih h hir

theorem collect_get_notmem {results : Nat → Except PyErr (Option Int × Option String)}
    {order : List Nat} {s0 j0 sc ju}
    (h : collect results order s0 j0 = .ok (sc, ju)) {i : Nat} (hi : i ∉ order) :
    sc[i]? = s0[i]? ∧ ju[i]? = j0[i]? := by
  induction order generalizing s0 j0 with
  | nil =>
    simp only [collect, Except.ok.injEq, Prod.mk.injEq] at h
    obtain ⟨h1, h2⟩ := h
    subst h1; subst h2
    exact ⟨rfl, rfl⟩
  | cons a rest ih =>
    simp only [collect] at h
    cases hra : results a with
    | error e => rw [hra] at h; cases h
    | ok v =>
      rw [hra] at h
      obtain ⟨s, j⟩ := v
      have hia : i ≠ a := fun hh => hi (hh ▸ List.mem_cons_self a rest)
      have hrest : i ∉ rest := fun hh => hi (List.mem_cons_of_mem a hh)
      have h2 := ih h hrest
      rwa [List.getElem?_set_ne (Ne.symm hia), List.getElem?_set_ne (Ne.symm hia)] at h2

theorem collect_get_mem {results : Nat → Except PyErr (Option Int × Option String)}
    {order : List Nat} {s0 j0 sc ju}
    (h : collect results order s0 j0 = .ok (sc, ju)) (hnd : order.Nodup)
    {i : Nat} (hi : i ∈ order) {s j} (hres : results i = .ok (s, j))
    (his : i < s0.length) (hij : i < j0.length) :
    sc[i]? = some s ∧ ju[i]? = some j := by
  induction order generalizing s0 j0 with
  | nil => cases hi
  | cons a rest ih =>
    simp only [collect] at h
    obtain ⟨ha, hndr⟩ := List.nodup_cons.mp hnd
    cases hra : results a with
    | error e => rw [hra] at h; cases h
    | ok v =>
      rw [hra] at h
      obtain ⟨sa, ja⟩ := v
      rcases List.mem_cons.mp hi with hia | hir
      · subst hia
        rw [hres] at hra
        simp only [Except.ok.injEq, Prod.mk.injEq] at hra
        obtain ⟨h1, h2⟩ := hra
        subst h1; subst h2
        have h3 := collect_get_notmem h ha
        rw [List.getElem?_set_self his, List.getElem?_set_self hij] at h3
        exact h3
      · exact ih h hndr hir (by simpa [List.length_set] using his)
          (by simpa [List.length_set] using hij)

theorem collect_error_of_mem {results : Nat → Except PyErr (Option Int × Option String)}
    {order : List Nat} {i : Nat} (hi : i ∈ order) {e}
    (hres : results i = .error e) :
    ∀ s0 j0, ∃ e2, collect results order s0 j0 = .error e2 := by
  induction order with
  | nil => cases hi
  | cons a rest ih =>
    intro s0 j0
    cases hra : results a with
    | error e2 => exact ⟨e2, by simp only [collect]; rw [hra]⟩
    | ok v =>
      obtain ⟨s, j⟩ := v
      rcases List.mem_cons.mp hi with hia | hir
      · subst hia; rw [hres] at hra; cases hra
      · obtain ⟨e2, h2⟩ := ih hir (s0.set a s) (j0.set a j)
        exact ⟨e2, by simp only [collect]; rw [hra]; exact h2⟩

/-! ### Shared facts about `eval_fn` -/

/-- Whenever `eval_fn` returns a `MetricValue` and the completion order is a
permutation of the task indices, the `scores` and `justifications` lists have
the length of the input batch and slot `i` holds exactly row `i`'s own task
result — independent of the completion order. -/
theorem evalFn_ok_spec {name : String} {gcols : List String}
    {aggregations : Option (List String)} {judge : Nat → Except PyErr PyVal}
    {predictions inputs : List PyVal} {args : List (List PyVal)}
    {order : List Nat} {mv : MetricValue}
    (hperm : order.Perm (List.range (min inputs.length predictions.length)))
    (hlen : predictions.length = inputs.length)
    (hok : eval_fn name gcols aggregations judge predictions inputs args order = .ok mv) :
    mv.scores.length = inputs.length ∧ mv.justifications.length = inputs.length ∧
    ∀ i, i < inputs.length →
      ∃ s j, rowResults name gcols args judge i = .ok (s, j) ∧
        mv.scores[i]? = some s ∧ mv.justifications[i]? = some j := by
  have hmin : min inputs.length predictions.length = inputs.length := by omega
  rw [hmin] at hperm
  have hnd : order.Nodup := hperm.nodup_iff.mpr (List.nodup_range inputs.length)
  unfold eval_fn at hok
  have main : ∀ sc ju,
      collect (rowResults name gcols args judge) order
        (List.replicate inputs.length Option.none)
        (List.replicate inputs.length Option.none) = .ok (sc, ju) →
      mv.scores = sc → mv.justifications = ju →
      mv.scores.length = inputs.length ∧ mv.justifications.length = inputs.length ∧
      ∀ i, i < inputs.length →
        ∃ s j, rowResults name gcols args judge i = .ok (s, j) ∧
          mv.scores[i]? = some s ∧ mv.justifications[i]? = some j := by
    intro sc ju hcol hsc hju
    obtain ⟨hl1, hl2⟩ := collect_length hcol
    refine ⟨by simpa [hsc] using hl1, by simpa [hju] using hl2, ?_⟩
    intro i hilt
    have hmem : i ∈ order := hperm.mem_iff.mpr (List.mem_range.mpr hilt)
    obtain ⟨⟨s, j⟩, hres⟩ := collect_mem_ok hcol hmem
    have hget := collect_get_mem hcol hnd hmem hres
      (by simpa using hilt) (by simpa using hilt)
    exact ⟨s, j, hres, by rw [hsc]; exact hget.1, by rw [hju]; exact hget.2⟩
  split at hok
  · cases hok
  · rename_i sc ju heq
    split at hok
    · cases hok
      exact main sc ju heq rfl rfl
    · split at hok
      · cases hok
      · cases hok
        exact main sc ju heq rfl rfl

/-- If any completed task raised, the run aborts: `eval_fn` returns an error
and no `MetricValue` is produced. -/
theorem evalFn_error_of_task_error {name : String} {gcols : List String}
    {aggregations : Option (List String)} {judge : Nat → Except PyErr PyVal}
    {predictions inputs : List PyVal} {args : List (List PyVal)}
    {order : List Nat} {i : Nat} (hi : i ∈ order) {e : PyErr}
    (hres : rowResults name gcols args judge i = .error e) :
    ∃ e2, eval_fn name gcols aggregations judge predictions inputs args order = .error e2 := by
  obtain ⟨e2, h2⟩ := collect_error_of_mem hi hres
    (List.replicate inputs.length Option.none)
    (List.replicate inputs.length Option.none)
  exact ⟨e2, by unfold eval_fn; rw [h2]⟩

/-! ### The claims -/

/-- C1: For every input batch of N rows, the eval function returns a
`MetricValue` whose `scores` and `justifications` both have length N and are
ordered identically to the input rows, for every possible completion order of
the concurrently dispatched judge tasks: slot `i` of each output list holds
exactly row `i`'s own task result (each task's result is written only at its
own row index in a preallocated array). -/
theorem C1_ordering_and_length
    (name : String) (gcols : List String) (aggregations : Option (List String))
    (judge : Nat → Except PyErr PyVal) (predictions inputs : List PyVal)
    (args : List (List PyVal)) (order : List Nat) (mv : MetricValue)
    (hperm : order.Perm (List.range (min inputs.length predictions.length)))
    (hlen : predictions.length = inputs.length)
    (hok : eval_fn name gcols aggregations judge predictions inputs args order = .ok mv) :
    mv.scores.length = inputs.length ∧ mv.justifications.length = inputs.length ∧
    ∀ i, i < inputs.length →
      ∃ s j, rowResults name gcols args judge i = .ok (s, j) ∧
        mv.scores[i]? = some s ∧ mv.justifications[i]? = some j :=
  evalFn_ok_spec hperm hlen hok

/-- A structured judge response whose candidate text parses via the regex
fallback; used to instantiate the batch-level theorems. -/
def wResp : PyVal :=
  .dict [("candidates", .list [.dict [("text", .str "score: 4, justification: ok")]])]

def wJudge : Nat → Except PyErr PyVal := fun _ => .ok wResp

def wMV : MetricValue := ⟨[some 4, some 4], [some "ok", some "ok"], []⟩

theorem C1_ordering_and_length_witness :
    ([1, 0] : List Nat).Perm
      (List.range (min ([PyVal.str "x", PyVal.str "y"] : List PyVal).length
        ([PyVal.str "a", PyVal.str "b"] : List PyVal).length)) ∧
    ([PyVal.str "a", PyVal.str "b"] : List PyVal).length
      = ([PyVal.str "x", PyVal.str "y"] : List PyVal).length ∧
    eval_fn "m" [] Option.none wJudge [.str "a", .str "b"] [.str "x", .str "y"] [] [1, 0]
      = .ok wMV ∧
    (wMV.scores.length = ([PyVal.str "x", PyVal.str "y"] : List PyVal).length ∧
     wMV.justifications.length = ([PyVal.str "x", PyVal.str "y"] : List PyVal).length ∧
     ∀ i, i < ([PyVal.str "x", PyVal.str "y"] : List PyVal).length →
       ∃ s j, rowResults "m" [] [] wJudge i = .ok (s, j) ∧
         wMV.scores[i]? = some s ∧ wMV.justifications[i]? = some j) :=
  ⟨by decide, rfl, rfl,
   C1_ordering_and_length "m" [] Option.none wJudge [.str "a", .str "b"]
     [.str "x", .str "y"] [] [1, 0] wMV (by decide) rfl rfl⟩

/-- Evaluating the per-row task when the judge call raises: the fatal test
decides between re-raising and the row-local failure pair. -/
theorem score_model_judge_error {name : String} {gcols : List String}
    {ev : List (String × List PyVal)} {indx : Nat} {e : PyErr} {astr : String}
    (hfmt : _format_args_string gcols ev indx = .ok astr) :
    score_model_on_one_payload name gcols ev (.error e) indx =
      if isFatal e then .error (.mlflowWrap e)
      else .ok (Option.none, some ("Failed to score model on payload. Error: " ++ pyErrStr e)) := by
  unfold score_model_on_one_payload
  rw [hfmt]
  rfl

/-- C2: A row task whose judge call raises an `MlflowException` tagged
`BAD_REQUEST` or `UNAUTHENTICATED` re-raises, aborting the whole run with no
`MetricValue`; any other exception makes only that row return
`(None, "Failed to score model on payload. Error: <message>")`, and every row
of a completed run — the failed one included — carries exactly its own task's
result. -/
theorem C2_fatal_aborts_nonfatal_row_local :
    (∀ (name : String) (gcols : List String) (aggregations : Option (List String))
       (judge : Nat → Except PyErr PyVal) (predictions inputs : List PyVal)
       (args : List (List PyVal)) (order : List Nat) (k : Nat) (e : PyErr) (astr : String),
       order.Perm (List.range (min inputs.length predictions.length)) →
       k < min inputs.length predictions.length →
       _format_args_string gcols (List.zip gcols args) k = .ok astr →
       judge k = .error e → isFatal e = true →
       ∃ e2, eval_fn name gcols aggregations judge predictions inputs args order = .error e2) ∧
    (∀ (name : String) (gcols : List String) (args : List (List PyVal))
       (judge : Nat → Except PyErr PyVal) (k : Nat) (e : PyErr) (astr : String),
       _format_args_string gcols (List.zip gcols args) k = .ok astr →
       judge k = .error e → isFatal e = false →
       rowResults name gcols args judge k =
         .ok (Option.none, some ("Failed to score model on payload. Error: " ++ pyErrStr e))) ∧
    (∀ (name : String) (gcols : List String) (aggregations : Option (List String))
       (judge : Nat → Except PyErr PyVal) (predictions inputs : List PyVal)
       (args : List (List PyVal)) (order : List Nat) (mv : MetricValue)
       (k : Nat) (e : PyErr) (astr : String),
       order.Perm (List.range (min inputs.length predictions.length)) →
       predictions.length = inputs.length →
       _format_args_string gcols (List.zip gcols args) k = .ok astr →
       judge k = .error e → isFatal e = false →
       eval_fn name gcols aggregations judge predictions inputs args order = .ok mv →
       k < inputs.length →
       mv.scores[k]? = some Option.none ∧
       mv.justifications[k]? =
         some (some ("Failed to score model on payload. Error: " ++ pyErrStr e)) ∧
       ∀ i, i < inputs.length →
         ∃ s j, rowResults name gcols args judge i = .ok (s, j) ∧
           mv.scores[i]? = some s ∧ mv.justifications[i]? = some j) := by
  have htasknf : ∀ (name : String) (gcols : List String) (args : List (List PyVal))
      (judge : Nat → Except PyErr PyVal) (k : Nat) (e : PyErr) (astr : String),
      _format_args_string gcols (List.zip gcols args) k = .ok astr →
      judge k = .error e → isFatal e = false →
      rowResults name gcols args judge k =
        .ok (Option.none, some ("Failed to score model on payload. Error: " ++ pyErrStr e)) := by
    intro name gcols args judge k e astr hfmt hj hnf
    unfold rowResults
    rw [hj, score_model_judge_error hfmt, hnf]
    simp
  refine ⟨?_, htasknf, ?_⟩
  · intro name gcols aggregations judge predictions inputs args order k e astr
      hperm hk hfmt hj hfatal
    have hmem : k ∈ order := hperm.mem_iff.mpr (List.mem_range.mpr hk)
    have htask : rowResults name gcols args judge k = .error (.mlflowWrap e) := by
      unfold rowResults
      rw [hj, score_model_judge_error hfmt, hfatal]
      simp
    exact evalFn_error_of_task_error hmem htask
  · intro name gcols aggregations judge predictions inputs args order mv k e astr
      hperm hlen hfmt hj hnf hok hklt
    obtain ⟨hl1, hl2, hrows⟩ := evalFn_ok_spec hperm hlen hok
    have htk := htasknf name gcols args judge k e astr hfmt hj hnf
    obtain ⟨s, j, hres, hs, hjg⟩ := hrows k hklt
    rw [htk] at hres
    simp only [Except.ok.injEq, Prod.mk.injEq] at hres
    obtain ⟨h1, h2⟩ := hres
    subst h1; subst h2
    exact ⟨hs, hjg, hrows⟩

def wFatalErr : PyErr := .mlflowException "boom" "UNAUTHENTICATED"

def wFatalJudge : Nat → Except PyErr PyVal := fun _ => .error wFatalErr

def wNfErr : PyErr := .typeError "network down"

def wMixJudge : Nat → Except PyErr PyVal :=
  fun i => if i = 0 then .error wNfErr else .ok wResp

def wMixMV : MetricValue :=
  ⟨[Option.none, some 4],
   [some "Failed to score model on payload. Error: network down", some "ok"], []⟩

theorem C2_fatal_aborts_nonfatal_row_local_witness :
    (∃ e2, eval_fn "m" [] Option.none wFatalJudge [.str "a"] [.str "x"] [] [0] = .error e2) ∧
    rowResults "m" [] [] wMixJudge 0 =
      .ok (Option.none, some ("Failed to score model on payload. Error: " ++ pyErrStr wNfErr)) ∧
    (wMixMV.scores[0]? = some Option.none ∧
     wMixMV.justifications[0]? =
       some (some ("Failed to score model on payload. Error: " ++ pyErrStr wNfErr)) ∧
     ∀ i, i < ([PyVal.str "x", PyVal.str "y"] : List PyVal).length →
       ∃ s j, rowResults "m" [] [] wMixJudge i = .ok (s, j) ∧
         wMixMV.scores[i]? = some s ∧ wMixMV.justifications[i]? = some j) :=
  ⟨C2_fatal_aborts_nonfatal_row_local.1 "m" [] Option.none wFatalJudge
     [.str "a"] [.str "x"] [] [0] 0 wFatalErr _ (by decide) (by decide) rfl rfl (by decide),
   C2_fatal_aborts_nonfatal_row_local.2.1 "m" [] [] wMixJudge 0 wNfErr _ rfl rfl (by decide),
   C2_fatal_aborts_nonfatal_row_local.2.2 "m" [] Option.none wMixJudge
     [.str "a", .str "b"] [.str "x", .str "y"] [] [0, 1] wMixMV 0 wNfErr _
     (by decide) rfl rfl rfl (by decide) rfl (by decide)⟩

/-! ### C3: missing grading-context column -/

def listContainsSub (ps : List Char) : List Char → Bool
  | [] => ps.isPrefixOf []
  | c :: rest => ps.isPrefixOf (c :: rest) || listContainsSub ps rest

/-- Substring occurrence test. -/
def strContains (s pat : String) : Bool := listContainsSub pat.data s.data

/-- The message of a run that failed with an `MlflowException`. -/
def errMsg : Except PyErr (Option Int × Option String) → Option String
  | .error (.mlflowException m _) => some m
  | _ => Option.none

/-- When every column before `c` resolves and `c` is missing, `args_dict`
construction stops at `c` with the line-35 `MlflowException`. -/
theorem buildArgsDict_missing (pre : List String) (c : String) (post : List String)
    (ev : List (String × List PyVal)) (indx : Nat)
    (hpre : ∀ a ∈ pre, ∃ xs, evLookup ev a = some xs ∧ indx < xs.length)
    (hc : evLookup ev c = Option.none) :
    buildArgsDict (pre ++ c :: post) ev indx =
      .error (.mlflowException
        (c ++ " does not exist in the eval function " ++ keysListStr ev ++ ".")
        defaultErrorCode) := by
  induction pre with
  | nil =>
    simp only [List.nil_append, buildArgsDict]
    rw [hc]
  | cons a rest ih =>
    obtain ⟨xs, hlk, hlen⟩ := hpre a (List.mem_cons_self a rest)
    have hx : xs[indx]? = some (xs.get ⟨indx, hlen⟩) := List.getElem?_eq_getElem hlen
    have hsg : seriesGet xs indx = .ok (xs.get ⟨indx, hlen⟩) := by
      unfold seriesGet
      rw [hx]
    simp only [List.cons_append, buildArgsDict, hlk, hsg, List.append_eq,
      ih (fun a2 ha2 => hpre a2 (List.mem_cons_of_mem a ha2))]

/-- C3 (amended): a missing required grading-context column makes the row
task raise an `MlflowException` that is fatal to the whole batch, and whose
message embeds the missing column name (and the available columns) — but no
row index: the error is identical for every row position. -/
theorem C3_missing_column_fatal_no_row_index
    (name : String) (pre : List String) (c : String) (post : List String)
    (args : List (List PyVal)) (indx : Nat) (judge : Nat → Except PyErr PyVal)
    (hpre : ∀ a ∈ pre,
      ∃ xs, evLookup (List.zip (pre ++ c :: post) args) a = some xs ∧ indx < xs.length)
    (hc : evLookup (List.zip (pre ++ c :: post) args) c = Option.none) :
    rowResults name (pre ++ c :: post) args judge indx =
      .error (.mlflowException
        (contextWrapMsg name (pre ++ c :: post) (List.zip (pre ++ c :: post) args)
          (.mlflowException
            (c ++ " does not exist in the eval function " ++
              keysListStr (List.zip (pre ++ c :: post) args) ++ ".")
            defaultErrorCode))
        defaultErrorCode) ∧
    (∀ (aggregations : Option (List String)) (predictions inputs : List PyVal)
       (order : List Nat), indx ∈ order →
       ∃ e2, eval_fn name (pre ++ c :: post) aggregations judge predictions inputs args order
          = .error e2) ∧
    (∀ (indx2 : Nat) (judge2 : Nat → Except PyErr PyVal),
       (∀ a ∈ pre,
         ∃ xs, evLookup (List.zip (pre ++ c :: post) args) a = some xs ∧ indx2 < xs.length) →
       rowResults name (pre ++ c :: post) args judge2 indx2 =
         rowResults name (pre ++ c :: post) args judge indx) := by
  have htask : ∀ (indx2 : Nat) (judge2 : Nat → Except PyErr PyVal),
      (∀ a ∈ pre,
        ∃ xs, evLookup (List.zip (pre ++ c :: post) args) a = some xs ∧ indx2 < xs.length) →
      rowResults name (pre ++ c :: post) args judge2 indx2 =
        .error (.mlflowException
          (contextWrapMsg name (pre ++ c :: post) (List.zip (pre ++ c :: post) args)
            (.mlflowException
              (c ++ " does not exist in the eval function " ++
                keysListStr (List.zip (pre ++ c :: post) args) ++ ".")
              defaultErrorCode))
          defaultErrorCode) := by
    intro indx2 judge2 hpre2
    unfold rowResults score_model_on_one_payload _format_args_string
    rw [buildArgsDict_missing pre c post _ indx2 hpre2 hc]
  refine ⟨htask indx judge hpre, ?_, ?_⟩
  · intro aggregations predictions inputs order hmem
    exact evalFn_error_of_task_error hmem (htask indx judge hpre)
  · intro indx2 judge2 hpre2
    rw [htask indx2 judge2 hpre2, htask indx judge hpre]

def c3taskRun (indx : Nat) : Except PyErr (Option Int × Option String) :=
  score_model_on_one_payload "metric" ["targets"] [] (.ok PyVal.none) indx

set_option maxRecDepth 40000 in
/-- C3 (counterexample to the claim as stated): scoring rows 5 and 7 with the
required column `targets` missing raises the very same `MlflowException` for
both rows, and its message — which does name the missing column — contains no
occurrence of the row index. -/
theorem C3_counterexample :
    c3taskRun 5 = c3taskRun 7 ∧
    (errMsg (c3taskRun 5)).isSome = true ∧
    strContains ((errMsg (c3taskRun 5)).getD "") "targets" = true ∧
    strContains ((errMsg (c3taskRun 5)).getD "") "5" = false := by
  refine ⟨rfl, rfl, ?_, ?_⟩ <;> decide

theorem C3_missing_column_fatal_no_row_index_witness :
    (∀ a ∈ ([] : List String),
      ∃ xs, evLookup (List.zip ([] ++ "targets" :: []) ([] : List (List PyVal))) a = some xs ∧
        0 < xs.length) ∧
    evLookup (List.zip ([] ++ "targets" :: []) ([] : List (List PyVal))) "targets"
      = Option.none ∧
    rowResults "metric" ([] ++ "targets" :: []) [] (fun _ => .ok PyVal.none) 0 =
      .error (.mlflowException
        (contextWrapMsg "metric" ([] ++ "targets" :: [])
          (List.zip ([] ++ "targets" :: []) ([] : List (List PyVal)))
          (.mlflowException
            ("targets" ++ " does not exist in the eval function " ++
              keysListStr (List.zip ([] ++ "targets" :: []) ([] : List (List PyVal))) ++ ".")
            defaultErrorCode))
        defaultErrorCode) :=
  ⟨fun a ha => absurd ha (List.not_mem_nil a),
   rfl,
   (C3_missing_column_fatal_no_row_index "metric" [] "targets" [] [] 0
     (fun _ => .ok PyVal.none)
     (fun a ha => absurd ha (List.not_mem_nil a)) rfl).1⟩

/-! ### C4: unknown aggregation name -/

/-- A statistic name that fails somewhere in the requested list makes the
dict-comprehension raise (whichever failure comes first in list order). -/
theorem computeAggs_error_of_mem {aggs : List String} {bad : String} (hmem : bad ∈ aggs)
    (xs : List Int) {e : PyErr} (hbad : aggregate_function bad xs = .error e) :
    ∃ e2, computeAggs aggs xs = .error e2 := by
  induction aggs with
  | nil => cases hmem
  | cons a rest ih =>
    cases ha : aggregate_function a xs with
    | error e2 => exact ⟨e2, by simp only [computeAggs]; rw [ha]⟩
    | ok v =>
      rcases List.mem_cons.mp hmem with h | h
      · subst h; rw [hbad] at ha; cases ha
      · obtain ⟨e2, h2⟩ := ih h
        exact ⟨e2, by simp only [computeAggs]; rw [ha, h2]⟩

/-- C4 (amended): an unrecognized aggregation name raises
`MlflowException("Invalid aggregate option <name>.", INVALID_PARAMETER_VALUE)`,
and a run requesting one always ends in an error with no `MetricValue` — but
the error surfaces in the aggregation phase after scoring, not before judge
dispatch. -/
theorem C4_unknown_aggregation_raises :
    (∀ (opt : String) (xs : List Int), opt ∉ supportedAggregations →
      aggregate_function opt xs =
        .error (.mlflowException ("Invalid aggregate option " ++ opt ++ ".")
          "INVALID_PARAMETER_VALUE")) ∧
    (∀ (name : String) (gcols : List String) (judge : Nat → Except PyErr PyVal)
       (predictions inputs : List PyVal) (args : List (List PyVal))
       (order : List Nat) (aggs : List String) (bad : String),
       bad ∈ aggs → bad ∉ supportedAggregations →
       ∃ e2, eval_fn name gcols (some aggs) judge predictions inputs args order
          = .error e2) := by
  have hagg : ∀ (opt : String) (xs : List Int), opt ∉ supportedAggregations →
      aggregate_function opt xs =
        .error (.mlflowException ("Invalid aggregate option " ++ opt ++ ".")
          "INVALID_PARAMETER_VALUE") := by
    intro opt xs hopt
    simp only [supportedAggregations, List.mem_cons, List.not_mem_nil, or_false,
      not_or] at hopt
    obtain ⟨h1, h2, h3, h4, h5, h6⟩ := hopt
    simp [aggregate_function, h1, h2, h3, h4, h5, h6]
  refine ⟨hagg, ?_⟩
  intro name gcols judge predictions inputs args order aggs bad hmem hnot
  unfold eval_fn
  cases hcol : collect (rowResults name gcols args judge) order
      (List.replicate inputs.length Option.none)
      (List.replicate inputs.length Option.none) with
  | error e => exact ⟨e, rfl⟩
  | ok p =>
    obtain ⟨sc, ju⟩ := p
    obtain ⟨e2, h2⟩ := computeAggs_error_of_mem hmem (sc.filterMap id) (hagg bad _ hnot)
    exact ⟨e2, by simp only [h2]⟩

/-- C4 (counterexample to the claim as stated): with the unknown statistic
`"stddev"` requested, a judge call is still dispatched — the run fails with
the judge's fatal error, not with the invalid-aggregate-option
`MlflowException`, so the `ConfigError` is not raised before judge dispatch. -/
theorem C4_counterexample :
    eval_fn "m" [] (some ["stddev"]) wFatalJudge [.str "a"] [.str "x"] [] [0]
      = .error (.mlflowWrap wFatalErr) ∧
    (PyErr.mlflowWrap wFatalErr ≠
      .mlflowException "Invalid aggregate option stddev." "INVALID_PARAMETER_VALUE") :=
  ⟨rfl, fun h => PyErr.noConfusion h⟩

theorem C4_unknown_aggregation_raises_witness :
    ("stddev" ∉ supportedAggregations ∧
     aggregate_function "stddev" [1, 2] =
       .error (.mlflowException ("Invalid aggregate option " ++ "stddev" ++ ".")
         "INVALID_PARAMETER_VALUE")) ∧
    ("stddev" ∈ ["mean", "stddev"] ∧
     ∃ e2, eval_fn "m" [] (some ["mean", "stddev"]) wJudge [.str "a"] [.str "x"] [] [0]
        = .error e2) :=
  ⟨⟨by decide, C4_unknown_aggregation_raises.1 "stddev" [1, 2] (by decide)⟩,
   ⟨by decide, C4_unknown_aggregation_raises.2 "m" [] wJudge [.str "a"] [.str "x"] [] [0]
      ["mean", "stddev"] "stddev" (by decide) (by decide)⟩⟩

/-! ### C5: aggregating an empty score list -/

/-- C5 (amended): on an empty non-null score list, `mean`, `median` and
`variance` return numpy `nan` and `p90` returns Python `None` (the guarded
lambda) without raising — but `min` and `max` raise `ValueError`, so not every
supported statistic has a defined sentinel. -/
theorem C5_empty_score_aggregation :
    aggregate_function "mean" [] = .ok AggVal.nan ∧
    aggregate_function "median" [] = .ok AggVal.nan ∧
    aggregate_function "variance" [] = .ok AggVal.nan ∧
    aggregate_function "p90" [] = .ok AggVal.pynone ∧
    aggregate_function "min" [] =
      .error (.valueError
        "zero-size array to reduction operation minimum which has no identity") ∧
    aggregate_function "max" [] =
      .error (.valueError
        "zero-size array to reduction operation maximum which has no identity") :=
  ⟨rfl, rfl, rfl, rfl, rfl, rfl⟩

/-- C5 (counterexample to the claim as stated): `min` — a member of the
supported statistic set — raises `ValueError` on the empty score list instead
of returning a sentinel. -/
theorem C5_counterexample :
    aggregate_function "min" [] =
      .error (.valueError
        "zero-size array to reduction operation minimum which has no identity") := rfl

/-! ### C6: no row-count validation -/

/-- C6 (amended): `eval_fn` performs no row-count check.  Tasks exist only
for `zip(inputs, predictions)` — the shorter prefix — while the result arrays
are preallocated with `len(inputs)` slots; with fewer predictions than inputs
the run completes normally and every row beyond the zipped range keeps its
initial `None` score and `None` justification. -/
theorem C6_no_length_check
    (name : String) (gcols : List String) (judge : Nat → Except PyErr PyVal)
    (predictions inputs : List PyVal) (args : List (List PyVal))
    (order : List Nat) (mv : MetricValue)
    (hle : predictions.length ≤ inputs.length)
    (hperm : order.Perm (List.range (min inputs.length predictions.length)))
    (hok : eval_fn name gcols Option.none judge predictions inputs args order = .ok mv) :
    mv.scores.length = inputs.length ∧ mv.justifications.length = inputs.length ∧
    ∀ i, predictions.length ≤ i → i < inputs.length →
      mv.scores[i]? = some Option.none ∧ mv.justifications[i]? = some Option.none := by
  have hmin : min inputs.length predictions.length = predictions.length := by omega
  rw [hmin] at hperm
  unfold eval_fn at hok
  split at hok
  · cases hok
  · rename_i sc ju heq
    cases hok
    obtain ⟨hl1, hl2⟩ := collect_length heq
    refine ⟨by simpa using hl1, by simpa using hl2, ?_⟩
    intro i hge hlt
    have hnm : i ∉ order := by
      intro hmem
      have := List.mem_range.mp (hperm.mem_iff.mp hmem)
      omega
    have hnot := collect_get_notmem heq hnm
    rw [List.getElem?_replicate_of_lt hlt, List.getElem?_replicate_of_lt hlt] at hnot
    exact hnot

/-- C6 (counterexample to the claim as stated): one prediction against two
inputs is not rejected — no configuration error is raised; the single zipped
row is scored and the second row silently remains `None`. -/
theorem C6_counterexample :
    eval_fn "m" [] Option.none wJudge [.str "a"] [.str "x", .str "y"] [] [0]
      = .ok ⟨[some 4, Option.none], [some "ok", Option.none], []⟩ := rfl

theorem C6_no_length_check_witness :
    ([PyVal.str "a"] : List PyVal).length ≤ ([PyVal.str "x", PyVal.str "y"] : List PyVal).length ∧
    ([0] : List Nat).Perm (List.range (min ([PyVal.str "x", PyVal.str "y"] : List PyVal).length
      ([PyVal.str "a"] : List PyVal).length)) ∧
    (let mv : MetricValue := ⟨[some 4, Option.none], [some "ok", Option.none], []⟩
     mv.scores.length = ([PyVal.str "x", PyVal.str "y"] : List PyVal).length ∧
     mv.justifications.length = ([PyVal.str "x", PyVal.str "y"] : List PyVal).length ∧
     ∀ i, ([PyVal.str "a"] : List PyVal).length ≤ i →
       i < ([PyVal.str "x", PyVal.str "y"] : List PyVal).length →
       mv.scores[i]? = some Option.none ∧ mv.justifications[i]? = some Option.none) :=
  ⟨by decide, by decide,
   C6_no_length_check "m" [] wJudge [.str "a"] [.str "x", .str "y"] [] [0]
     ⟨[some 4, Option.none], [some "ok", Option.none], []⟩
     (by decide) (by decide) rfl⟩

/-! ### C7-C9: the response parser -/

/-- C7: the claim says the parser is total — a response without a structured
candidates list should be "treated as text" and never raise.  In the code,
`text` is assigned only inside the structured branch, so `if text:` raises
`UnboundLocalError` for a plain-string response and for a dict whose
`candidates` list is empty: the documented fallback does not exist. -/
theorem C7_parser_not_total :
    _extract_score_and_justification (.str "score: 3, justification: good")
      = .error .unboundLocal ∧
    _extract_score_and_justification (.dict [("candidates", .list [])])
      = .error .unboundLocal ∧
    _extract_score_and_justification (.int 7) = .error .unboundLocal :=
  ⟨rfl, rfl, rfl⟩

set_option maxRecDepth 40000 in
/-- C8: structured parsing is tried first and the regex fallback second — the
valid-JSON candidate text parses on the structured path and the near-JSON
text `score: 3, justification: partially correct` on the regex path. -/
theorem C8_structured_then_regex :
    _extract_score_and_justification
      (.dict [("candidates", .list [.dict [("text",
        .str "\x7b\"score\": 4, \"justification\": \"good\"\x7d")]])])
      = .ok (some 4, some "good") ∧
    jsonLoads "score: 3, justification: partially correct" = .error () ∧
    _extract_score_and_justification
      (.dict [("candidates", .list [.dict [("text",
        .str "score: 3, justification: partially correct")]])])
      = .ok (some 3, some "partially correct") :=
  ⟨rfl, rfl, rfl⟩

set_option maxRecDepth 40000 in
/-- C9 (counterexample to the claim as stated): a structured response whose
valid-JSON text has a non-numeric (`null`) score does not yield the
`"Failed to extract ..."` `ScoreResult` — `int(data.get("score"))` raises a
`TypeError` that escapes the parser (only `JSONDecodeError` is caught). -/
theorem C9_counterexample :
    _extract_score_and_justification
      (.dict [("candidates", .list [.dict [("text",
        .str "\x7b\"score\": null, \"justification\": \"good\"\x7d")]])])
      = .error (.typeError
        "int() argument must be a string, a bytes-like object or a real number, not \x27NoneType\x27")
      := rfl

/-- C9 (amended): when both parsing tiers fail — the text is not valid JSON
and the regex finds no match — or when a structured parse yields an
int-coercible score but a non-string justification, the parser returns
`{score: None, justification: "Failed to extract score and justification.
Raw output: <original response>"}`; a score field that `int()` cannot coerce
instead raises out of the parser. -/
theorem C9_parse_failure_diagnostic :
    (∀ (output : PyVal) (s : String),
       getCandidateText output = some (.ok (.str s)) → s ≠ "" →
       jsonLoads s = .error () → reSearch s = Option.none →
       _extract_score_and_justification output
         = .ok (Option.none, some (failExtractMsg output))) ∧
    (∀ (output : PyVal) (s : String) (d : List (String × PyVal)) (n : Int),
       getCandidateText output = some (.ok (.str s)) → s ≠ "" →
       jsonLoads s = .ok (.dict d) →
       pyInt (dictGetD d "score") = .ok n →
       pyIsStr (dictGetD d "justification") = false →
       _extract_score_and_justification output
         = .ok (Option.none, some (failExtractMsg output))) ∧
    (∀ output : PyVal, failExtractMsg output =
       "Failed to extract score and justification. Raw output: " ++ pyStr output) := by
  refine ⟨?_, ?_, fun _ => rfl⟩
  · intro output s hcand hne hjson hre
    have hb : (s != "") = true := bne_iff_ne.mpr hne
    simp only [_extract_score_and_justification, hcand, pyTruthy, hb, if_true,
      hjson, hre]
    rfl
  · intro output s d n hcand hne hjson hint hjs
    have hb : (s != "") = true := bne_iff_ne.mpr hne
    simp only [_extract_score_and_justification, hcand, pyTruthy, hb, if_true,
      hjson, hint]
    simp only [finishExtract, pyIsNumeric, Bool.true_and, hjs, Bool.false_eq_true,
      if_false]

def wGarbageResp : PyVal :=
  .dict [("candidates", .list [.dict [("text", .str "garbage text")]])]

def wBadJustResp : PyVal :=
  .dict [("candidates", .list [.dict [("text",
    .str "\x7b\"score\": 4, \"justification\": 7\x7d")]])]

set_option maxRecDepth 40000 in
theorem C9_parse_failure_diagnostic_witness :
    (getCandidateText wGarbageResp = some (.ok (.str "garbage text")) ∧
     "garbage text" ≠ "" ∧
     jsonLoads "garbage text" = .error () ∧
     reSearch "garbage text" = Option.none ∧
     _extract_score_and_justification wGarbageResp
       = .ok (Option.none, some (failExtractMsg wGarbageResp))) ∧
    (getCandidateText wBadJustResp
       = some (.ok (.str "\x7b\"score\": 4, \"justification\": 7\x7d")) ∧
     jsonLoads "\x7b\"score\": 4, \"justification\": 7\x7d"
       = .ok (.dict [("score", .int 4), ("justification", .int 7)]) ∧
     pyInt (dictGetD [("score", .int 4), ("justification", .int 7)] "score") = .ok 4 ∧
     pyIsStr (dictGetD [("score", .int 4), ("justification", .int 7)] "justification")
       = false ∧
     _extract_score_and_justification wBadJustResp
       = .ok (Option.none, some (failExtractMsg wBadJustResp))) :=
  ⟨⟨rfl, by decide, rfl, rfl,
    C9_parse_failure_diagnostic.1 wGarbageResp "garbage text" rfl (by decide) rfl rfl⟩,
   ⟨rfl, rfl, rfl, rfl,
    C9_parse_failure_diagnostic.2.1 wBadJustResp "\x7b\"score\": 4, \"justification\": 7\x7d"
      [("score", .int 4), ("justification", .int 7)] 4 rfl (by decide) rfl rfl rfl⟩⟩

/-! ### C10: parser-internal exceptions are absorbed at the task boundary -/

/-- C10: any exception raised inside the row task's `try` — by the judge call
or by `_extract_score_and_justification` itself (e.g. the `TypeError` from
`int()` on a missing score field) — that is not a fatal `MlflowException`
makes the task return `(None, "Failed to score model on payload. Error:
<message>")` for that row, carrying the judge-call failure message rather
than the parse-failure diagnostic. -/
theorem C10_task_absorbs_nonfatal_exceptions
    (name : String) (gcols : List String) (args : List (List PyVal))
    (judge : Nat → Except PyErr PyVal) (k : Nat) (e : PyErr) (astr : String)
    (hfmt : _format_args_string gcols (List.zip gcols args) k = .ok astr)
    (htry : judge k >>= _extract_score_and_justification = .error e)
    (hnf : isFatal e = false) :
    rowResults name gcols args judge k =
      .ok (Option.none, some ("Failed to score model on payload. Error: " ++ pyErrStr e)) := by
  unfold rowResults score_model_on_one_payload
  rw [hfmt]
  simp only [htry, hnf, Bool.false_eq_true, if_false]

def wNoScoreResp : PyVal :=
  .dict [("candidates", .list [.dict [("text", .str "\x7b\"justification\": \"good\"\x7d")]])]

def wNoScoreJudge : Nat → Except PyErr PyVal := fun _ => .ok wNoScoreResp

def wIntNoneTypeErr : PyErr :=
  .typeError
    "int() argument must be a string, a bytes-like object or a real number, not \x27NoneType\x27"

set_option maxRecDepth 40000 in
theorem C10_task_absorbs_nonfatal_exceptions_witness :
    _format_args_string [] (List.zip ([] : List String) ([] : List (List PyVal))) 0
      = .ok "Additional information used by the model:\n" ∧
    wNoScoreJudge 0 >>= _extract_score_and_justification = .error wIntNoneTypeErr ∧
    isFatal wIntNoneTypeErr = false ∧
    rowResults "m" [] [] wNoScoreJudge 0 =
      .ok (Option.none,
        some ("Failed to score model on payload. Error: " ++ pyErrStr wIntNoneTypeErr)) :=
  ⟨rfl, rfl, rfl,
   C10_task_absorbs_nonfatal_exceptions "m" [] [] wNoScoreJudge 0 wIntNoneTypeErr _
     rfl rfl rfl⟩
